import Mathlib

/-!
Shallow embedding of the WebGPU volume raycaster: the frame loop, the
per-frame view-parameter upload, the colormap-swap resource rebuild, the
inline volume upload path, and the startup capability checks.

Two variants of the main module exist in the repository sources:

* `src/volume-raycaster.js` — a `frame` callback driven by
  `requestAnimationFrame`, recreating the staging buffer every frame
  (modelled below as `frameVR` over `VRState`);
* an unnamed module (`part_000`) — an `async` `while (true)` loop with a
  persistent staging buffer mapped via `mapAsync`, and a live colormap
  swap branch (modelled below as `loopStep` over `AppState`).

Float32 values are modelled as rationals: none of the verified
properties depends on floating-point rounding, only on data flow,
buffer layout and command ordering.  Input handlers run on the single
cooperative thread and can only fire at suspension points: handlers
dispatched between iterations (the display tick, and the colormap
upload await, which precedes every camera read of the iteration) are
modelled by `HostEvent.input`, while handlers dispatched during the
staging-buffer mapping await of `part_000` — which sits between the
view-matrix read and the eye-position read — are modelled by the
`duringMap` parameter of `renderFrame`.  GPU resources are identified
by numeric handles assigned in creation order.
-/

namespace VolumeRaycaster

abbrev Scalar := Rat

/-- `Float32Array.set(data, offset)` on a typed-array view of a buffer:
overwrite `data.length` entries starting at `offset`, keeping the rest. -/
def setAt (buf data : List Scalar) (offset : Nat) : List Scalar :=
  buf.take offset ++ data ++ buf.drop (offset + data.length)

/-- gl-matrix `mat4.mul` (column-major 4x4 product), as called at
`projView = mat4.mul(projView, proj, camera.camera)`. -/
def mat4mul (a b : List Scalar) : List Scalar :=
  (List.range 16).map fun i =>
    (List.range 4).foldl
      (fun acc k => acc + a.getD (k * 4 + i % 4) 0 * b.getD ((i / 4) * 4 + k) 0) 0

/-- gl-matrix `mat4.create()`: the identity matrix. -/
def mat4identity : List Scalar :=
  [1, 0, 0, 0, 0, 1, 0, 0, 0, 0, 1, 0, 0, 0, 0, 1]

structure Vec3 where
  x : Scalar
  y : Scalar
  z : Scalar
deriving DecidableEq, Repr

def Vec3.toList (v : Vec3) : List Scalar := [v.x, v.y, v.z]

/-- Snapshot interface of the external `ArcballCamera` component (out of
the core scope, spec section 1): `camera.camera` is the 4x4 view matrix
and `camera.eyePos()` a 3-component vector. -/
structure Camera where
  viewMatrix : List Scalar
  eye : Vec3
deriving DecidableEq, Repr

/-! Resource handles of the `part_000` module, numbered in creation
order; the pipeline layout is fixed for the lifetime of the process. -/

def vertexBufferId : Nat := 0
def indexBufferId : Nat := 1
def viewParamsBufferId : Nat := 2
def samplerId : Nat := 3
def initialColormapTextureId : Nat := 4
def volumeTextureId : Nat := 5
def volumeDataBufferId : Nat := 6
def uploadBufferId : Nat := 7
def renderPipelineId : Nat := 8

/-- The descriptor of one bind group: the bound resource set
(uniform view-parameter buffer, 3-D volume texture view, 2-D colormap
texture view, sampler, optional read-only storage buffer).  The
`volume-raycaster.js` variant has no storage-buffer entry (`none`). -/
structure BindGroupEntries where
  viewParams : Nat
  volumeView : Nat
  colormapView : Nat
  sampler : Nat
  volumeData : Option Nat
deriving DecidableEq, Repr

/-- Observable CPU-side and command-recording events of one frame. -/
inductive Event where
  | createTexture (id : Nat)
  | destroyTexture (id : Nat)
  | createBuffer (id : Nat)
  | createBindGroup (entries : BindGroupEntries)
  | mapStaging
  | stagingWrite (offset : Nat) (data : List Scalar)
  | unmapStaging
  | recordCopy (src dst size : Nat)
  | beginRenderPass (clearValue : List Scalar)
  | setPipeline (id : Nat)
  | setBindGroup (entries : BindGroupEntries)
  | setVertexBuffer (id : Nat)
  | setIndexBuffer (id : Nat)
  | draw (vertexCount instanceCount firstVertex firstInstance : Nat)
  | drawIndexed (indexCount instanceCount firstIndex baseVertex firstInstance : Nat)
  | endPass
  | submit
deriving DecidableEq, Repr

def isCopy : Event → Bool
  | .recordCopy _ _ _ => true
  | _ => false

def isBeginPass : Event → Bool
  | .beginRenderPass _ => true
  | _ => false

def isSubmit : Event → Bool
  | .submit => true
  | _ => false

def isMapStaging : Event → Bool
  | .mapStaging => true
  | _ => false

def isUnmapStaging : Event → Bool
  | .unmapStaging => true
  | _ => false

def isStagingWrite : Event → Bool
  | .stagingWrite _ _ => true
  | _ => false

def isDraw : Event → Bool
  | .draw _ _ _ _ => true
  | _ => false

def isDrawIndexed : Event → Bool
  | .drawIndexed _ _ _ _ _ => true
  | _ => false

def isDestroyTexture : Event → Bool
  | .destroyTexture _ => true
  | _ => false

/-- Every event matched by `p` occurs strictly before the first event
matched by `q` in the trace `tr`. -/
def allBefore (p q : Event → Bool) (tr : List Event) : Bool :=
  (tr.takeWhile fun e => !q e).countP p == tr.countP p

/-- The staging-buffer offsets written by the `Float32Array.set` calls
recorded in a trace. -/
def writtenOffsets (tr : List Event) : List Nat :=
  tr.foldr
    (fun e acc =>
      match e with
      | .stagingWrite off data => ((List.range data.length).map (off + ·)) ++ acc
      | _ => acc)
    []

/-- Modelled from the spec: `getCubeMesh` is defined in `volume.js`,
which is not among the sources; spec section 2 item 1 specifies "a fixed
unit-cube mesh (vertices + triangle-strip indices)".  Eight unit-cube
corner vertices (3 floats each) and a 14-index triangle strip. -/
structure CubeMesh where
  vertices : List Scalar
  indices : List Nat
deriving Repr

def getCubeMesh : CubeMesh :=
  { vertices := [0, 0, 0, 1, 0, 0, 0, 1, 0, 1, 1, 0, 0, 0, 1, 1, 0, 1, 0, 1, 1, 1, 1, 1],
    indices := [0, 1, 2, 3, 7, 1, 5, 0, 4, 2, 6, 7, 4, 5] }

def cube : CubeMesh := getCubeMesh

/-- The fixed background clear color `[0.3, 0.3, 0.3, 1]` shared by both
variants (`clearValue` in `part_000`, `loadValue` in
`volume-raycaster.js`). -/
def clearColor : List Scalar := [3 / 10, 3 / 10, 3 / 10, 1]

/-- State of the `part_000` module between loop iterations.
`bindGroup` is the installed resource set: `createBindGroup` snapshots
its entry list, so the installed value is a copy of `bindGroupEntries`
at creation time, not a reference to it. -/
structure AppState where
  camera : Camera
  colormapName : String
  colormapTexture : Nat
  volumeTexture : Nat
  bindGroupEntries : BindGroupEntries
  bindGroup : BindGroupEntries
  stagingBuffer : List Scalar
  projView : List Scalar
  renderPipeline : Nat
  nextId : Nat
deriving Repr

def initialEntries : BindGroupEntries :=
  { viewParams := viewParamsBufferId
    volumeView := volumeTextureId
    colormapView := initialColormapTextureId
    sampler := samplerId
    volumeData := some volumeDataBufferId }

/-- Startup state of `part_000` after resource creation: the colormap
defaults to "dBZ Radarscope"; the persistent staging buffer `upload` is
created unmapped and (per the WebGPU contract) zero-initialized;
`projView` starts as `mat4.create()`. -/
def initState (cam0 : Camera) : AppState :=
  { camera := cam0
    colormapName := "dBZ Radarscope"
    colormapTexture := initialColormapTextureId
    volumeTexture := volumeTextureId
    bindGroupEntries := initialEntries
    bindGroup := initialEntries
    stagingBuffer := List.replicate 20 0
    projView := mat4identity
    renderPipeline := renderPipelineId
    nextId := 9 }

/-- The colormap-swap branch of the frame loop (`part_000` lines
315-324): when the picker value differs from the bound colormap name, a
new texture is uploaded, the entry list gets the new view, and a whole
new bind group is created from it and installed. -/
def colormapSwap (st : AppState) (picker : String) : AppState × List Event :=
  if st.colormapName = picker then (st, [])
  else
    let newTex := st.nextId
    let entries := { st.bindGroupEntries with colormapView := newTex }
    ({ st with
        colormapName := picker
        colormapTexture := newTex
        bindGroupEntries := entries
        bindGroup := entries
        nextId := st.nextId + 1 },
     [Event.createTexture newTex, Event.createBindGroup entries])

/-- The successive states of the colormap-swap branch at the granularity
of single JavaScript assignments: update the name, install the new
texture handle, mutate the entry list, then create and install the new
bind group.  When the picker matches, the branch is not taken. -/
def colormapSwapStates (st : AppState) (picker : String) : List AppState :=
  if st.colormapName = picker then [st]
  else
    let newTex := st.nextId
    let s1 := { st with colormapName := picker }
    let s2 := { s1 with colormapTexture := newTex, nextId := st.nextId + 1 }
    let s3 := { s2 with bindGroupEntries := { s2.bindGroupEntries with colormapView := newTex } }
    let s4 := { s3 with bindGroup := s3.bindGroupEntries }
    [st, s1, s2, s3, s4]

/-- The per-frame camera upload and render-pass recording (`part_000`
lines 326-353).  `projView` is computed from `camera.camera` at line
327, before the `await upload.mapAsync` suspension at line 330; while
the loop is suspended there, pending pointer and wheel events are
dispatched and may mutate the camera through the registered handlers —
`duringMap` is the combined camera transformation they apply (the
identity function when none fire).  After the mapping completes,
`camera.eyePos()` is read at line 331 from the possibly mutated
camera, the record is written and unmapped, and the copy, render pass
and submit are recorded. -/
def renderFrame (proj : List Scalar) (duringMap : Camera → Camera) (st : AppState) :
    AppState × List Event :=
  let projView := mat4mul proj st.camera.viewMatrix
  let cam2 := duringMap st.camera
  let eyePos := cam2.eye.toList
  let staging := setAt (setAt st.stagingBuffer projView 0) eyePos projView.length
  ({ st with camera := cam2, projView := projView, stagingBuffer := staging },
   [Event.mapStaging,
    Event.stagingWrite 0 projView,
    Event.stagingWrite projView.length eyePos,
    Event.unmapStaging,
    Event.recordCopy uploadBufferId viewParamsBufferId (20 * 4),
    Event.beginRenderPass clearColor,
    Event.setPipeline st.renderPipeline,
    Event.setBindGroup st.bindGroup,
    Event.setVertexBuffer vertexBufferId,
    Event.setIndexBuffer indexBufferId,
    Event.draw (cube.vertices.length / 3) 1 0 0,
    Event.endPass,
    Event.submit])

/-- One iteration of the `while (true)` frame loop of `part_000`: when
`document.hidden` holds, the iteration does nothing; otherwise the
colormap swap check runs first, then the camera upload and the render
pass. -/
def loopStep (hidden : Bool) (picker : String) (proj : List Scalar)
    (duringMap : Camera → Camera) (st : AppState) : AppState × List Event :=
  if hidden then (st, [])
  else
    ((renderFrame proj duringMap (colormapSwap st picker).1).1,
     (colormapSwap st picker).2 ++
       (renderFrame proj duringMap (colormapSwap st picker).1).2)

/-- The pointer handlers registered on the canvas controller (`part_000`
lines 245-258).  `rot` and `pan` stand for the external ArcballCamera
methods `rotate` and `pan`: each consumes and returns camera state
only. -/
def mousemoveHandler (rot : Camera → (Int × Int) → (Int × Int) → Camera)
    (pan : Camera → Int × Int → Camera) (prev cur : Int × Int) (buttons : Nat)
    (st : AppState) : AppState :=
  if buttons = 1 then { st with camera := rot st.camera prev cur }
  else if buttons = 2 then
    { st with camera := pan st.camera (cur.1 - prev.1, prev.2 - cur.2) }
  else st

def wheelHandler (zoom : Camera → Scalar → Camera) (amt : Scalar) (st : AppState) : AppState :=
  { st with camera := zoom st.camera amt }

/-- `controller.pinch = controller.wheel`. -/
def pinchHandler := wheelHandler

def twoFingerDragHandler (pan : Camera → Int × Int → Camera) (drag : Int × Int)
    (st : AppState) : AppState :=
  { st with camera := pan st.camera drag }

/-- Everything of the loop state except the camera. -/
def nonCameraView (st : AppState) :
    String × Nat × Nat × BindGroupEntries × BindGroupEntries × List Scalar × List Scalar ×
      Nat × Nat :=
  (st.colormapName, st.colormapTexture, st.volumeTexture, st.bindGroupEntries, st.bindGroup,
   st.stagingBuffer, st.projView, st.renderPipeline, st.nextId)

/-- Host-driven events: a display tick (with the visibility flag, the
colormap picker value, and the camera mutation applied by handlers
dispatched while the iteration is suspended at the mapping await) or
an input event between iterations (which, through the controller
handlers above, transforms only the camera). -/
inductive HostEvent where
  | tick (hidden : Bool) (picker : String) (duringMap : Camera → Camera)
  | input (f : Camera → Camera)

def hostStep (proj : List Scalar) (st : AppState) : HostEvent → AppState
  | .tick hidden picker duringMap => (loopStep hidden picker proj duringMap st).1
  | .input f => { st with camera := f st.camera }

def runHost (proj : List Scalar) (evs : List HostEvent) (st : AppState) : AppState :=
  evs.foldl (hostStep proj) st

/-! The `volume-raycaster.js` variant: its bind group has four entries
(no storage buffer) and is never rebuilt; the staging buffer is created
fresh each frame with `mappedAtCreation: true` (hence zero-filled before
the 19 written floats). -/

def vrEntries : BindGroupEntries :=
  { viewParams := viewParamsBufferId
    volumeView := volumeTextureId
    colormapView := initialColormapTextureId
    sampler := samplerId
    volumeData := none }

structure VRState where
  camera : Camera
  projView : List Scalar
  lastUpload : List Scalar
deriving Repr

/-- One invocation of the `frame` callback of `volume-raycaster.js`
(lines 209-241): when the document is hidden it only reschedules
itself; otherwise it recreates the staging buffer, writes the record,
and records copy, render pass and submit. -/
def frameVR (hidden : Bool) (proj : List Scalar) (st : VRState) : VRState × List Event :=
  if hidden then (st, [])
  else
    let projView := mat4mul proj st.camera.viewMatrix
    let eyePos := st.camera.eye.toList
    let staging := setAt (setAt (List.replicate 20 0) projView 0) eyePos projView.length
    ({ camera := st.camera, projView := projView, lastUpload := staging },
     [Event.createBuffer uploadBufferId,
      Event.stagingWrite 0 projView,
      Event.stagingWrite projView.length eyePos,
      Event.unmapStaging,
      Event.recordCopy uploadBufferId viewParamsBufferId (20 * 4),
      Event.beginRenderPass clearColor,
      Event.setPipeline renderPipelineId,
      Event.setBindGroup vrEntries,
      Event.setVertexBuffer vertexBufferId,
      Event.setIndexBuffer indexBufferId,
      Event.draw (cube.vertices.length / 3) 1 0 0,
      Event.endPass,
      Event.submit])

/-! Startup capability checks. -/

/-- `unsupportedNotice`: the canvas is hidden and the static
"no-webgpu" element shown, then the function returns.
`uncaughtException`: the async function aborts on a thrown error with no
notice shown.  `proceed` is the only outcome that continues toward
resource creation and the frame loop. -/
inductive StartupOutcome where
  | unsupportedNotice
  | uncaughtException
  | proceed
deriving DecidableEq, Repr

/-- Startup checks of `part_000` (lines 20-40): a missing
`navigator.gpu` or a null adapter each shows the notice and returns. -/
def startupPart000 (gpuAvailable adapterAvailable : Bool) : StartupOutcome :=
  if !gpuAvailable then .unsupportedNotice
  else if !adapterAvailable then .unsupportedNotice
  else .proceed

/-- Startup checks of `volume-raycaster.js` (lines 9-21): only
`navigator.gpu` is tested; with a null adapter the subsequent
`adapter.requestDevice()` throws a TypeError, aborting the async
function without showing the notice. -/
def startupVR (gpuAvailable adapterAvailable : Bool) : StartupOutcome :=
  if !gpuAvailable then .unsupportedNotice
  else if !adapterAvailable then .uncaughtException
  else .proceed

/-! The inline volume upload path. -/

/-- WebGPU `copyBufferToTexture` data-layout validation for a
one-byte-per-texel format ("r8unorm"), modelled from the device
boundary contract (the source comment at the call site reads: "bytes
per row must be multiple of 256"): the row stride must be 256-aligned
and at least the row width, `rowsPerImage` must cover the copy height,
and the copy footprint must fit inside the source buffer. -/
def copyBufferToTextureValid (bytesPerRow rowsPerImage : Nat) (extent : List Nat)
    (bufLen : Nat) : Bool :=
  let w := extent.getD 0 0
  let h := extent.getD 1 0
  let d := extent.getD 2 0
  (bytesPerRow % 256 == 0) && decide (w ≤ bytesPerRow) && decide (h ≤ rowsPerImage) &&
    (if h == 0 || d == 0 then true
     else decide (bytesPerRow * (rowsPerImage * (d - 1) + (h - 1)) + w ≤ bufLen))

/-- The inline volume upload of `volume-raycaster.js` (lines 99-119): a
source buffer of exactly `dataLen` bytes is copied into the 3-D texture
with `bytesPerRow = volumeDims[0]` (the natural row size, with no row
padding applied) and `rowsPerImage = volumeDims[1]`, over the extent
`volumeDims`. -/
def volumeUploadValid (volumeDims : List Nat) (dataLen : Nat) : Bool :=
  copyBufferToTextureValid (volumeDims.getD 0 0) (volumeDims.getD 1 0) volumeDims dataLen

/-- The row stride the upload path actually passes: the unpadded
natural row size. -/
def bytesPerRowUsed (volumeDims : List Nat) : Nat := volumeDims.getD 0 0

/-- Whether any live program variable of the loop state still holds the
texture handle `t`: the installed colormap and volume handles, and the
views referenced from the entry list and the installed bind group. -/
def referencesTexture (st : AppState) (t : Nat) : Bool :=
  decide (st.colormapTexture = t) || decide (st.volumeTexture = t) ||
    decide (st.bindGroupEntries.colormapView = t) ||
    decide (st.bindGroupEntries.volumeView = t) ||
    decide (st.bindGroup.colormapView = t) || decide (st.bindGroup.volumeView = t)

/-- A concrete camera snapshot (the default eye of `part_000` with an
identity view matrix), used to instantiate closed statements. -/
def cam0 : Camera := { viewMatrix := mat4identity, eye := { x := 0, y := 0, z := 2 } }

/-- A concrete projection matrix input for closed statements. -/
def proj0 : List Scalar := mat4identity

/-- A concrete camera mutation standing for an input event dispatched
while the loop is suspended at the mapping await: a zoom moving the
eye from (0, 0, 2) to (0, 0, 3), with the matching view matrix. -/
def camJump : Camera → Camera := fun _ =>
  { viewMatrix := [1, 0, 0, 0, 0, 1, 0, 0, 0, 0, 1, 0, 0, 0, -3, 1],
    eye := { x := 0, y := 0, z := 3 } }

/-! Helper lemmas. -/

theorem mat4mul_length (a b : List Scalar) : (mat4mul a b).length = 16 := by
  simp [mat4mul]

theorem Vec3.toList_length (v : Vec3) : v.toList.length = 3 := rfl

/-- The two `Float32Array.set` calls assemble the record in one piece:
matrix, then eye position, leaving only the final slot untouched. -/
theorem setAt_setAt_record (buf pv eye : List Scalar) (hpv : pv.length = 16)
    (heye : eye.length = 3) :
    setAt (setAt buf pv 0) eye pv.length = pv ++ eye ++ buf.drop 19 := by
  simp only [setAt, List.take_zero, List.nil_append, Nat.zero_add, heye, hpv]
  rw [← hpv, List.take_left, List.drop_append_eq_append_drop]
  simp [hpv, List.drop_drop]

theorem mat4mul_identity_identity : mat4mul mat4identity mat4identity = mat4identity := by
  have hr : List.range 16 = [0, 1, 2, 3, 4, 5, 6, 7, 8, 9, 10, 11, 12, 13, 14, 15] := rfl
  have hr4 : List.range 4 = [0, 1, 2, 3] := rfl
  simp only [mat4mul, hr, hr4, List.map_cons, List.map_nil, List.foldl_cons, List.foldl_nil,
    mat4identity]
  norm_num [List.getD_cons_zero, List.getD_cons_succ]

theorem mat4mul_identity_jump :
    mat4mul mat4identity [1, 0, 0, 0, 0, 1, 0, 0, 0, 0, 1, 0, 0, 0, -3, 1] =
      [1, 0, 0, 0, 0, 1, 0, 0, 0, 0, 1, 0, 0, 0, -3, 1] := by
  have hr : List.range 16 = [0, 1, 2, 3, 4, 5, 6, 7, 8, 9, 10, 11, 12, 13, 14, 15] := rfl
  have hr4 : List.range 4 = [0, 1, 2, 3] := rfl
  simp only [mat4mul, hr, hr4, List.map_cons, List.map_nil, List.foldl_cons, List.foldl_nil,
    mat4identity]
  norm_num [List.getD_cons_zero, List.getD_cons_succ]

theorem colormapSwap_camera (st : AppState) (picker : String) :
    (colormapSwap st picker).1.camera = st.camera := by
  by_cases hc : st.colormapName = picker <;> simp [colormapSwap, hc]

theorem colormapSwap_stagingBuffer (st : AppState) (picker : String) :
    (colormapSwap st picker).1.stagingBuffer = st.stagingBuffer := by
  by_cases hc : st.colormapName = picker <;> simp [colormapSwap, hc]

theorem colormapSwap_renderPipeline (st : AppState) (picker : String) :
    (colormapSwap st picker).1.renderPipeline = st.renderPipeline := by
  by_cases hc : st.colormapName = picker <;> simp [colormapSwap, hc]

/-- The staging buffer a visible iteration leaves behind: the matrix
half comes from the camera state before the mapping await, the eye
half from the camera state after it. -/
theorem loopStep_stagingBuffer (st : AppState) (picker : String) (proj : List Scalar)
    (f : Camera → Camera) :
    (loopStep false picker proj f st).1.stagingBuffer =
      mat4mul proj st.camera.viewMatrix ++ (f st.camera).eye.toList ++
        st.stagingBuffer.drop 19 := by
  have hrec := setAt_setAt_record ((colormapSwap st picker).1.stagingBuffer)
    (mat4mul proj ((colormapSwap st picker).1.camera.viewMatrix))
    ((f ((colormapSwap st picker).1.camera)).eye.toList)
    (mat4mul_length _ _) (Vec3.toList_length _)
  simp only [loopStep, if_neg (by simp : ¬ (false = true)), renderFrame]
  rw [hrec, colormapSwap_camera, colormapSwap_stagingBuffer]

/-! Claim theorems. -/

/-- Claim C1 counterexample: the claim states that the record is built
from the camera snapshot taken during that same frame; but when an
input event fires while the part_000 loop is suspended at the mapping
await, the staged record equals neither the record of the camera state
before the suspension nor the record of the camera state after it —
the matrix half comes from the earlier state and the eye half from the
later one, a mixed record. -/
theorem C1_counterexample :
    (loopStep false "dBZ Radarscope" proj0 camJump (initState cam0)).1.stagingBuffer ≠
        mat4mul proj0 (initState cam0).camera.viewMatrix ++
          (initState cam0).camera.eye.toList ++ [0] ∧
    (loopStep false "dBZ Radarscope" proj0 camJump (initState cam0)).1.stagingBuffer ≠
        mat4mul proj0 (camJump (initState cam0).camera).viewMatrix ++
          (camJump (initState cam0).camera).eye.toList ++ [0] := by
  have hstage := loopStep_stagingBuffer (initState cam0) "dBZ Radarscope" proj0 camJump
  have hid : mat4mul proj0 (initState cam0).camera.viewMatrix = mat4identity :=
    mat4mul_identity_identity
  have hjump : mat4mul proj0 (camJump (initState cam0).camera).viewMatrix =
      [1, 0, 0, 0, 0, 1, 0, 0, 0, 0, 1, 0, 0, 0, -3, 1] :=
    mat4mul_identity_jump
  rw [hstage, hid, hjump]
  exact ⟨by decide, by decide⟩

/-- Claim C1 amended: for every frame rendered while visible, the
staging buffer is fully written — the 16 projection-view floats
followed by the eye position — before the copy, and the recorded
command stream contains exactly one uniform-buffer copy, one render
pass and one submission, with the copy recorded before the render pass
and both before the submit, so the GPU never observes a partially
written record; however the record need not come from a single camera
snapshot: the matrix is computed from the camera state before the
staging-buffer mapping await and the eye position from the camera
state after it, and the two coincide exactly when no input handler
fires at that suspension.  The volume-raycaster.js frame body is
synchronous, so its per-frame staging buffer always holds the record
of one camera snapshot, ending in the zero padding slot. -/
theorem C1_amended_two_phase_record (st : AppState) (vst : VRState) (picker : String)
    (proj : List Scalar) (f : Camera → Camera) :
    (loopStep false picker proj f st).1.stagingBuffer =
        mat4mul proj st.camera.viewMatrix ++ (f st.camera).eye.toList ++
          st.stagingBuffer.drop 19 ∧
    (loopStep false picker proj (fun c => c) st).1.stagingBuffer =
        mat4mul proj st.camera.viewMatrix ++ st.camera.eye.toList ++
          st.stagingBuffer.drop 19 ∧
    (loopStep false picker proj f st).2.countP isCopy = 1 ∧
    (loopStep false picker proj f st).2.countP isBeginPass = 1 ∧
    (loopStep false picker proj f st).2.countP isSubmit = 1 ∧
    allBefore isCopy isBeginPass (loopStep false picker proj f st).2 = true ∧
    allBefore isCopy isSubmit (loopStep false picker proj f st).2 = true ∧
    allBefore isBeginPass isSubmit (loopStep false picker proj f st).2 = true ∧
    (frameVR false proj vst).1.lastUpload =
        mat4mul proj vst.camera.viewMatrix ++ vst.camera.eye.toList ++ [0] ∧
    (frameVR false proj vst).2.countP isCopy = 1 ∧
    (frameVR false proj vst).2.countP isBeginPass = 1 ∧
    (frameVR false proj vst).2.countP isSubmit = 1 ∧
    allBefore isCopy isBeginPass (frameVR false proj vst).2 = true ∧
    allBefore isCopy isSubmit (frameVR false proj vst).2 = true := by
  refine ⟨loopStep_stagingBuffer st picker proj f,
    loopStep_stagingBuffer st picker proj (fun c => c), ?_⟩
  by_cases hc : st.colormapName = picker <;>
    simp [loopStep, colormapSwap, renderFrame, frameVR, hc, allBefore,
      List.countP_cons, List.countP_nil, List.takeWhile, isCopy, isBeginPass, isSubmit] <;>
    rw [setAt_setAt_record _ _ _ (mat4mul_length _ _) (Vec3.toList_length _)] <;>
    simp

/-- Claim C7: in every visible iteration of the part_000 loop, the
staging record write completes — the buffer map request precedes every
staging write, every staging write precedes the unmap — before the copy
of the staging buffer into the uniform buffer is issued, and each of
these steps occurs exactly once per frame. -/
theorem C7_handshake_before_copy (st : AppState) (picker : String) (proj : List Scalar)
    (f : Camera → Camera) :
    (loopStep false picker proj f st).2.countP isMapStaging = 1 ∧
    (loopStep false picker proj f st).2.countP isUnmapStaging = 1 ∧
    (loopStep false picker proj f st).2.countP isStagingWrite = 2 ∧
    (loopStep false picker proj f st).2.countP isCopy = 1 ∧
    allBefore isMapStaging isStagingWrite (loopStep false picker proj f st).2 = true ∧
    allBefore isStagingWrite isUnmapStaging (loopStep false picker proj f st).2 = true ∧
    allBefore isUnmapStaging isCopy (loopStep false picker proj f st).2 = true := by
  by_cases hc : st.colormapName = picker <;>
    simp [loopStep, colormapSwap, renderFrame, hc, allBefore, List.countP_cons,
      List.countP_nil, List.takeWhile, isCopy, isMapStaging, isUnmapStaging, isStagingWrite]

/-- Claim C2: at every single-assignment step of the colormap swap, the
installed resource set equals either the old complete five-entry tuple
or the new complete five-entry tuple, never a partially updated value
(createBindGroup snapshots its entry list, so mutating the descriptor
array does not affect the installed bind group); the final installed
value is the wholesale rebuilt tuple whose only changed field is the
colormap view. -/
theorem C2_atomic_resource_rebuild (st : AppState) (picker : String) :
    ((colormapSwapStates st picker).all fun s =>
        decide (s.bindGroup = st.bindGroup ∨
          s.bindGroup = { st.bindGroupEntries with colormapView := st.nextId })) = true ∧
    (colormapSwap st picker).1 = (colormapSwapStates st picker).getLastD st ∧
    (if st.colormapName = picker then (colormapSwap st picker).1.bindGroup = st.bindGroup
     else (colormapSwap st picker).1.bindGroup =
        { viewParams := st.bindGroupEntries.viewParams
          volumeView := st.bindGroupEntries.volumeView
          colormapView := st.nextId
          sampler := st.bindGroupEntries.sampler
          volumeData := st.bindGroupEntries.volumeData }) := by
  by_cases hc : st.colormapName = picker <;>
    simp [colormapSwap, colormapSwapStates, hc, List.all_cons, List.all_nil]

/-- Claim C3: swapping the colormap alters neither the camera state,
nor the volume texture handle, nor the volume view of the entry list
and of the rebuilt bind group, nor the render pipeline; conversely
every pointer or gesture handler (rotate, pan, zoom via mousemove,
wheel, pinch, two-finger drag) changes the camera field alone, leaving
the whole resource state — in particular the installed bind group —
untouched, for any behavior of the external arcball methods. -/
theorem C3_swap_and_camera_isolated (st : AppState) (picker : String)
    (rot : Camera → (Int × Int) → (Int × Int) → Camera) (pan : Camera → Int × Int → Camera)
    (zoom : Camera → Scalar → Camera) (prev cur drag : Int × Int) (buttons : Nat)
    (amt : Scalar) :
    (colormapSwap st picker).1.camera = st.camera ∧
    (colormapSwap st picker).1.volumeTexture = st.volumeTexture ∧
    (colormapSwap st picker).1.bindGroupEntries.volumeView = st.bindGroupEntries.volumeView ∧
    (colormapSwap st picker).1.bindGroup.volumeView =
      (if st.colormapName = picker then st.bindGroup.volumeView
       else st.bindGroupEntries.volumeView) ∧
    (colormapSwap st picker).1.renderPipeline = st.renderPipeline ∧
    nonCameraView (mousemoveHandler rot pan prev cur buttons st) = nonCameraView st ∧
    nonCameraView (wheelHandler zoom amt st) = nonCameraView st ∧
    nonCameraView (pinchHandler zoom amt st) = nonCameraView st ∧
    nonCameraView (twoFingerDragHandler pan drag st) = nonCameraView st := by
  refine ⟨?_, ?_, ?_, ?_, ?_, ?_, rfl, rfl, rfl⟩
  · exact colormapSwap_camera st picker
  · by_cases hc : st.colormapName = picker <;> simp [colormapSwap, hc]
  · by_cases hc : st.colormapName = picker <;> simp [colormapSwap, hc]
  · by_cases hc : st.colormapName = picker <;> simp [colormapSwap, hc]
  · exact colormapSwap_renderPipeline st picker
  · simp only [mousemoveHandler]
    split_ifs <;> rfl

/-- Claim C6: a hidden iteration of the part_000 loop (and a hidden
invocation of the volume-raycaster.js frame callback) changes no state
and records no event, so no command submission happens while hidden and
any run of hidden iterations preserves camera and resources exactly;
the first visible iteration applies a colormap selection made in the
meantime: its name is adopted and the bind group rebuilt with the new
texture, while the bind group stays identical when the selection is
unchanged; the frame itself never alters the camera beyond the input
handlers dispatched at its mapping suspension. -/
theorem C6_hidden_no_side_effects (st : AppState) (vst : VRState) (pickers : List String)
    (picker v : String) (proj : List Scalar) (f : Camera → Camera) :
    loopStep true picker proj f st = (st, []) ∧
    frameVR true proj vst = (vst, []) ∧
    (pickers.foldl (fun s p => (loopStep true p proj f s).1) st) = st ∧
    (loopStep false v proj f st).1.colormapName = v ∧
    (loopStep false v proj f st).1.camera = f st.camera ∧
    (if st.colormapName = v then (loopStep false v proj f st).1.bindGroup = st.bindGroup
     else (loopStep false v proj f st).1.bindGroup =
        { st.bindGroupEntries with colormapView := st.nextId }) := by
  refine ⟨by simp [loopStep], by simp [frameVR], ?_, ?_, ?_, ?_⟩
  · induction pickers with
    | nil => rfl
    | cons p ps ih =>
        simp only [List.foldl_cons]
        rw [show (loopStep true p proj f st).1 = st from by simp [loopStep]]
        exact ih
  · by_cases hc : st.colormapName = v <;>
      simp [loopStep, colormapSwap, renderFrame, hc]
  · rw [show (loopStep false v proj f st).1.camera = f ((colormapSwap st v).1.camera) from by
      simp [loopStep, renderFrame]]
    rw [colormapSwap_camera]
  · by_cases hc : st.colormapName = v <;>
      simp [loopStep, colormapSwap, renderFrame, hc]

/-- Claim C4 counterexample: the claim states that the upload succeeds
iff the source byte length equals width x height x depth x voxelSize,
with rows padded to the 256-byte alignment when the natural row size is
unaligned.  At dimensions 500 x 500 x 40 with a source of exactly
10,000,000 bytes the byte length matches the product, yet the upload
fails: the path passes the unpadded row size 500 as the row stride,
violating the 256-byte alignment rule. -/
theorem C4_counterexample :
    ¬ (volumeUploadValid [500, 500, 40] 10000000 = true ↔
        10000000 = 500 * 500 * 40) := by
  decide

/-- Claim C4 amended: the inline upload path applies no row padding —
it passes the natural row size width x voxelSize as the row stride — so
for positive dimensions the upload validates iff the width is a
multiple of 256 and the source buffer holds at least the copy footprint
(an oversized source also validates); there is no ResourceError type,
failure being a deterministic device validation error. -/
theorem C4_amended_no_row_padding (w h d dataLen : Nat) (hh : 0 < h) (hd : 0 < d) :
    bytesPerRowUsed [w, h, d] = w ∧
    (volumeUploadValid [w, h, d] dataLen = true ↔
      (w % 256 = 0 ∧ w * (h * (d - 1) + (h - 1)) + w ≤ dataLen)) := by
  have hh' : (h == 0) = false := by simp; omega
  have hd' : (d == 0) = false := by simp; omega
  refine ⟨rfl, ?_⟩
  simp [volumeUploadValid, copyBufferToTextureValid, bytesPerRowUsed, hh', hd',
    Bool.and_eq_true, decide_eq_true_eq, Nat.beq_eq_true_eq, and_assoc]

/-- Claim C4 amended, witness at width 256, height 2, depth 2 and a
source of exactly the 1024-byte footprint. -/
theorem C4_amended_no_row_padding_witness :
    bytesPerRowUsed [256, 2, 2] = 256 ∧
    (volumeUploadValid [256, 2, 2] 1024 = true ↔
      (256 % 256 = 0 ∧ 256 * (2 * (2 - 1) + (2 - 1)) + 256 ≤ 1024)) :=
  C4_amended_no_row_padding 256 2 2 1024 (by decide) (by decide)

/-- Claim C5 counterexample: the claim states that each visible frame
issues one indexed draw covering the full cube, that is, a drawIndexed
call over all cube indices; but the trace of a visible iteration at the
startup state contains no such command — the code calls draw, not
drawIndexed, so the bound index buffer is never consumed. -/
theorem C5_counterexample :
    ¬ Event.drawIndexed cube.indices.length 1 0 0 0 ∈
        (loopStep false "dBZ Radarscope" proj0 (fun c => c) (initState cam0)).2 := by
  decide

/-- Claim C5 amended: every visible frame of either variant records one
render pass clearing to the fixed background color, binds the pipeline,
the current resource set and the cube vertex and index buffers, and
issues exactly one draw call — a non-indexed draw whose vertex count is
cube.vertices.length / 3; no indexed draw is ever recorded, so the
bound index buffer goes unused. -/
theorem C5_amended_single_nonindexed_draw (st : AppState) (vst : VRState) (picker : String)
    (proj : List Scalar) (f : Camera → Camera) :
    (loopStep false picker proj f st).2.countP isBeginPass = 1 ∧
    Event.beginRenderPass clearColor ∈ (loopStep false picker proj f st).2 ∧
    Event.setPipeline st.renderPipeline ∈ (loopStep false picker proj f st).2 ∧
    Event.setBindGroup (colormapSwap st picker).1.bindGroup ∈
      (loopStep false picker proj f st).2 ∧
    Event.setVertexBuffer vertexBufferId ∈ (loopStep false picker proj f st).2 ∧
    Event.setIndexBuffer indexBufferId ∈ (loopStep false picker proj f st).2 ∧
    (loopStep false picker proj f st).2.countP isDraw = 1 ∧
    Event.draw (cube.vertices.length / 3) 1 0 0 ∈ (loopStep false picker proj f st).2 ∧
    (loopStep false picker proj f st).2.countP isDrawIndexed = 0 ∧
    allBefore isBeginPass isDraw (loopStep false picker proj f st).2 = true ∧
    (frameVR false proj vst).2.countP isDraw = 1 ∧
    (frameVR false proj vst).2.countP isDrawIndexed = 0 ∧
    Event.draw (cube.vertices.length / 3) 1 0 0 ∈ (frameVR false proj vst).2 := by
  by_cases hc : st.colormapName = picker <;>
    simp [loopStep, colormapSwap, renderFrame, frameVR, hc, allBefore, List.countP_cons,
      List.countP_nil, List.takeWhile, isBeginPass, isDraw, isDrawIndexed]

/-- Claim C8 counterexample: the claim states that on a colormap
selection change the previously installed texture is freed; but the
swap trace at the startup state, switching to a different colormap,
contains no destroy of the old texture handle. -/
theorem C8_counterexample :
    ¬ Event.destroyTexture (initState cam0).colormapTexture ∈
        (colormapSwap (initState cam0) "Viridis").2 := by
  decide

/-- Claim C8 amended: on a colormap selection change a new texture is
created and installed wholesale, and every program reference to the
previous texture is dropped — afterwards no live variable of the loop
state holds the old handle — but the old texture is never explicitly
destroyed: reclamation is left to garbage collection of the
unreachable handle.  (Volume selection changes cannot occur: that
branch is commented out.) -/
theorem C8_amended_dereference_without_free (st : AppState) (picker : String)
    (hpick : st.colormapName ≠ picker)
    (hvol : st.volumeTexture ≠ st.colormapTexture)
    (hvv : st.bindGroupEntries.volumeView ≠ st.colormapTexture)
    (hfresh : st.colormapTexture ≠ st.nextId) :
    Event.createTexture st.nextId ∈ (colormapSwap st picker).2 ∧
    (colormapSwap st picker).2.countP isDestroyTexture = 0 ∧
    referencesTexture (colormapSwap st picker).1 st.colormapTexture = false := by
  have hc : ¬ st.colormapName = picker := hpick
  simp [colormapSwap, hc, referencesTexture, List.countP_cons, List.countP_nil,
    isDestroyTexture, hvol, hvv, Ne.symm hfresh]

/-- Claim C8 amended, witness: the startup state switching to the
"Viridis" colormap. -/
theorem C8_amended_dereference_without_free_witness :
    Event.createTexture (initState cam0).nextId ∈
        (colormapSwap (initState cam0) "Viridis").2 ∧
    (colormapSwap (initState cam0) "Viridis").2.countP isDestroyTexture = 0 ∧
    referencesTexture (colormapSwap (initState cam0) "Viridis").1
        (initState cam0).colormapTexture = false :=
  C8_amended_dereference_without_free (initState cam0) "Viridis" (by decide) (by decide)
    (by decide) (by decide)

/-- Claim C9 counterexample: the claim states that when no adapter is
available the system falls back to the static unsupported notice; but
in the volume-raycaster.js variant, with the WebGPU API present and a
null adapter, startup aborts on an uncaught exception at
adapter.requestDevice and the notice is never shown. -/
theorem C9_counterexample :
    ¬ startupVR true false = StartupOutcome.unsupportedNotice := by
  decide

/-- Claim C9 amended: whenever the WebGPU API or the adapter is
unavailable, startup is terminal in both variants and the frame loop is
never entered (the outcome is never proceed); the part_000 variant
always shows the static unsupported notice, and the
volume-raycaster.js variant shows it when the API is missing but aborts
with an uncaught exception, without a notice, when only the adapter is
null. -/
theorem C9_amended_capability_fallback (g a : Bool) (hfail : ¬ (g = true ∧ a = true)) :
    startupPart000 g a = StartupOutcome.unsupportedNotice ∧
    startupVR g a ≠ StartupOutcome.proceed ∧
    (g = false → startupVR g a = StartupOutcome.unsupportedNotice) ∧
    (g = true → startupVR g a = StartupOutcome.uncaughtException) := by
  cases g <;> cases a <;> simp_all [startupPart000, startupVR]

/-- Claim C9 amended, witness: WebGPU API present, adapter null. -/
theorem C9_amended_capability_fallback_witness :
    startupPart000 true false = StartupOutcome.unsupportedNotice ∧
    startupVR true false ≠ StartupOutcome.proceed ∧
    (true = false → startupVR true false = StartupOutcome.unsupportedNotice) ∧
    (true = true → startupVR true false = StartupOutcome.uncaughtException) :=
  C9_amended_capability_fallback true false (by decide)

theorem record_length_and_slot19 (buf pv eye : List Scalar) (hpv : pv.length = 16)
    (heye : eye.length = 3) (hlen : buf.length = 20) (hz : buf.getD 19 0 = 0) :
    (pv ++ eye ++ buf.drop 19).length = 20 ∧ (pv ++ eye ++ buf.drop 19).getD 19 0 = 0 := by
  constructor
  · simp [hpv, heye, hlen]
  · rw [List.getD_eq_getElem?_getD, List.append_assoc,
      List.getElem?_append_right (by omega), List.getElem?_append_right (by omega)]
    simp only [hpv, heye]
    rw [show 19 - 16 - 3 = 0 from rfl, List.getElem?_drop]
    simpa [List.getD_eq_getElem?_getD] using hz

/-- The staging-buffer invariant along any interleaving of display
ticks and input events: the persistent upload buffer keeps its 20
entries and its final slot keeps the initial zero. -/
theorem runHost_staging_invariant (proj : List Scalar) (evs : List HostEvent) (st : AppState)
    (hlen : st.stagingBuffer.length = 20) (hz : st.stagingBuffer.getD 19 0 = 0) :
    (runHost proj evs st).stagingBuffer.length = 20 ∧
      (runHost proj evs st).stagingBuffer.getD 19 0 = 0 := by
  induction evs generalizing st with
  | nil => exact ⟨hlen, hz⟩
  | cons e es ih =>
    have hstep : (hostStep proj st e).stagingBuffer.length = 20 ∧
        (hostStep proj st e).stagingBuffer.getD 19 0 = 0 := by
      cases e with
      | input f => exact ⟨hlen, hz⟩
      | tick hidden picker g =>
        cases hidden with
        | false =>
            rw [show hostStep proj st (.tick false picker g) =
              (loopStep false picker proj g st).1 from rfl, loopStep_stagingBuffer]
            exact record_length_and_slot19 _ _ _ (mat4mul_length _ _) (Vec3.toList_length _)
              hlen hz
        | true =>
            have hsame : hostStep proj st (.tick true picker g) = st := by
              simp [hostStep, loopStep]
            rw [hsame]
            exact ⟨hlen, hz⟩
    exact ih (hostStep proj st e) hstep.1 hstep.2

/-- Claim C10: starting from startup and along any sequence of display
ticks and input events, the persistent staging buffer keeps 20 entries
and its final slot — offset 19, the homogeneous padding slot — keeps
the initial zero of buffer creation: every visible iteration writes
exactly offsets 0 through 18 (the 16 matrix floats at 0..15 and the
3-component eye position at 16..18), a hidden iteration writes nothing,
and the same per-frame write pattern holds for the
volume-raycaster.js frame, whose fresh staging buffer also carries zero
in slot 19. -/
theorem C10_slot19_never_written (cam : Camera) (proj : List Scalar) (evs : List HostEvent)
    (st : AppState) (vst : VRState) (picker : String) (f : Camera → Camera) :
    (runHost proj evs (initState cam)).stagingBuffer.length = 20 ∧
    (runHost proj evs (initState cam)).stagingBuffer.getD 19 0 = 0 ∧
    writtenOffsets (loopStep false picker proj f st).2 = List.range 19 ∧
    writtenOffsets (loopStep true picker proj f st).2 = [] ∧
    writtenOffsets (frameVR false proj vst).2 = List.range 19 ∧
    (frameVR false proj vst).1.lastUpload.getD 19 0 = 0 := by
  have hbuf : (initState cam).stagingBuffer = List.replicate 20 (0 : Scalar) := rfl
  have hinv := runHost_staging_invariant proj evs (initState cam)
    (by rw [hbuf]; decide) (by rw [hbuf]; decide)
  refine ⟨hinv.1, hinv.2, ?_, by simp [loopStep, writtenOffsets], ?_, ?_⟩
  · by_cases hc : st.colormapName = picker <;>
      simp [loopStep, colormapSwap, renderFrame, hc, writtenOffsets, mat4mul_length,
        Vec3.toList] <;> decide
  · simp [frameVR, writtenOffsets, mat4mul_length, Vec3.toList]
    decide
  · rw [show (frameVR false proj vst).1.lastUpload =
      setAt (setAt (List.replicate 20 0) (mat4mul proj vst.camera.viewMatrix) 0)
        (vst.camera.eye.toList) (mat4mul proj vst.camera.viewMatrix).length from by
          simp [frameVR],
      setAt_setAt_record _ _ _ (mat4mul_length _ _) (Vec3.toList_length _)]
    exact (record_length_and_slot19 _ _ _ (mat4mul_length _ _) (Vec3.toList_length _)
      (by decide) (by decide)).2

end VolumeRaycaster
